import Mathlib

/-!
Verification of the claude-guardian core against its specification.

This file shallowly embeds the hang-risk detector (src/process-monitor.ts,
assessHangRisk), the incident tracker (incident.ts), the budget controller
(budget.ts), the budget store read discipline (budget-store.ts), the
attention synthesizer (state.ts, computeAttention) and the bundle step of the
guardian_nudge MCP handler (mcp-server.ts).  JavaScript millisecond
timestamps are embedded as `Int`; fractional quantities (CPU %, memory MB,
disk GB) as `ℚ`; nullable fields as `Option`.  ISO date strings round-trip
with epoch milliseconds, so timestamps stored as strings in the source are
carried as their millisecond values here.
-/

namespace Guardian

/-- Risk level of the hang detector (process-monitor.ts `RiskLevel`). -/
inductive RiskLevel where
  | ok
  | warn
  | critical
deriving DecidableEq, Repr

/-- Numeric height of a risk level, for stating monotonicity of `peakLevel`. -/
def RiskLevel.toNat : RiskLevel → Nat
  | .ok => 0
  | .warn => 1
  | .critical => 2

/-- A sampled process (process-monitor.ts `ClaudeProcess`). -/
structure ClaudeProcess where
  pid : Nat
  name : String
  cpuPercent : ℚ
  memoryMB : ℚ
  uptimeSeconds : Int
deriving DecidableEq, Repr

/-- Activity signals (process-monitor.ts `ActivitySignals`). -/
structure ActivitySignals where
  logLastModifiedSecondsAgo : Int
  cpuActive : Bool
  sources : List String
deriving DecidableEq, Repr

/-- Hang risk record (process-monitor.ts `HangRisk`). -/
structure HangRisk where
  level : RiskLevel
  noActivitySeconds : Int
  cpuLowSeconds : Int
  cpuHot : Bool
  memoryHigh : Bool
  diskLow : Bool
  graceRemainingSeconds : Int
  reasons : List String
deriving DecidableEq, Repr

namespace THRESHOLDS

/-- defaults.ts `THRESHOLDS.graceWindowSeconds`. -/
def graceWindowSeconds : Int := 60

/-- defaults.ts `THRESHOLDS.criticalAfterSeconds`. -/
def criticalAfterSeconds : Int := 600

/-- defaults.ts `THRESHOLDS.bundleCooldownSeconds`. -/
def bundleCooldownSeconds : Int := 300

/-- defaults.ts `THRESHOLDS.cpuLowThreshold`. -/
def cpuLowThreshold : ℚ := 5

end THRESHOLDS

/-- Signal A of assessHangRisk: log mtime unknown or stale past the hang
threshold (`activity.logLastModifiedSecondsAgo < 0 || ... > hangThresholdSeconds`). -/
def logQuiet (activity : ActivitySignals) (hangThresholdSeconds : Int) : Bool :=
  decide (activity.logLastModifiedSecondsAgo < 0) ||
    decide (hangThresholdSeconds < activity.logLastModifiedSecondsAgo)

/-- Signal B of assessHangRisk: CPU low across all processes (`!activity.cpuActive`). -/
def cpuLow (activity : ActivitySignals) : Bool :=
  !activity.cpuActive

/-- `processes.some(p => p.cpuPercent > 95)` in assessHangRisk. -/
def cpuHotB (processes : List ClaudeProcess) : Bool :=
  processes.any fun p => decide ((95 : ℚ) < p.cpuPercent)

/-- `processes.some(p => p.memoryMB > 4096)` in assessHangRisk. -/
def memoryHighB (processes : List ClaudeProcess) : Bool :=
  processes.any fun p => decide ((4096 : ℚ) < p.memoryMB)

/-- `diskFreeGB >= 0 && diskFreeGB < 5` in assessHangRisk. -/
def diskLowB (diskFreeGB : ℚ) : Bool :=
  decide ((0 : ℚ) ≤ diskFreeGB) && decide (diskFreeGB < 5)

/-- `Math.max(0, THRESHOLDS.graceWindowSeconds - processAgeSeconds)`. -/
def graceRemainingOf (processAgeSeconds : Int) : Int :=
  max 0 (THRESHOLDS.graceWindowSeconds - processAgeSeconds)

/-- The per-process text of the CPU-hot reason line. -/
def cpuHotReason (processes : List ClaudeProcess) : String :=
  "CPU hot: " ++ String.intercalate ", "
    ((processes.filter fun p => decide ((95 : ℚ) < p.cpuPercent)).map
      fun p => "PID " ++ toString p.pid ++ " at " ++ toString p.cpuPercent ++ "%")

/-- The per-process text of the high-memory reason line. -/
def memoryHighReason (processes : List ClaudeProcess) : String :=
  "High memory: " ++ String.intercalate ", "
    ((processes.filter fun p => decide ((4096 : ℚ) < p.memoryMB)).map
      fun p => "PID " ++ toString p.pid ++ " at " ++ toString p.memoryMB ++ "MB")

/-- The disk reason line. -/
def diskLowReason (diskFreeGB : ℚ) : String :=
  "Disk free: " ++ toString diskFreeGB ++ "GB (< 5GB threshold)"

/-- The warn-level no-activity reason line. -/
def noActivityReason (compositeQuietSeconds : Int) : String :=
  "No activity for " ++ toString compositeQuietSeconds ++ "s (logs quiet + CPU low)"

/-- The critical-level no-activity reason line. -/
def noActivityCriticalReason (compositeQuietSeconds : Int) : String :=
  noActivityReason compositeQuietSeconds ++ " — critical threshold exceeded"

/-- Composite hang risk assessment (process-monitor.ts `assessHangRisk`).
Pure function of the probes, the configured hang threshold, the process age
and the carried composite-quiet counter. -/
def assessHangRisk (processes : List ClaudeProcess) (activity : ActivitySignals)
    (diskFreeGB : ℚ) (hangThresholdSeconds : Int)
    (processAgeSeconds : Int) (compositeQuietSeconds : Int) : HangRisk :=
  let graceRemaining := graceRemainingOf processAgeSeconds
  let inGrace := decide (0 < graceRemaining)
  let lq := logQuiet activity hangThresholdSeconds
  let cl := cpuLow activity
  let compositeQuiet := lq && cl
  let cpuHot := cpuHotB processes
  let memoryHigh := memoryHighB processes
  let diskLow := diskLowB diskFreeGB
  let baseReasons :=
    (if cpuHot then [cpuHotReason processes] else []) ++
    (if memoryHigh then [memoryHighReason processes] else []) ++
    (if diskLow then [diskLowReason diskFreeGB] else [])
  let levelReason : RiskLevel × List String :=
    if inGrace then
      if diskLow then (.warn, []) else (.ok, [])
    else if compositeQuiet && decide (hangThresholdSeconds < compositeQuietSeconds) then
      if decide (hangThresholdSeconds + THRESHOLDS.criticalAfterSeconds < compositeQuietSeconds) then
        (.critical, [noActivityCriticalReason compositeQuietSeconds])
      else
        (.warn, [noActivityReason compositeQuietSeconds])
    else if diskLow then (.warn, [])
    else if cpuHot && memoryHigh then (.warn, [])
    else (.ok, [])
  { level := levelReason.1
    noActivitySeconds := if compositeQuiet then compositeQuietSeconds else 0
    cpuLowSeconds := if cl then compositeQuietSeconds else 0
    cpuHot := cpuHot
    memoryHigh := memoryHigh
    diskLow := diskLow
    graceRemainingSeconds := graceRemaining
    reasons := baseReasons ++ levelReason.2 }

/-- An active or closed incident (incident.ts `Incident`).  `startedAt` and
`closedAt` are epoch milliseconds. -/
structure Incident where
  id : String
  startedAt : Int
  closedAt : Option Int
  reason : String
  peakLevel : RiskLevel
  bundleCaptured : Bool
  bundlePath : Option String
deriving DecidableEq, Repr

/-- The incident tracker state (incident.ts `IncidentTracker`): one optional
active incident plus the per-PID bundle timestamps. -/
structure IncidentTracker where
  active : Option Incident
  lastBundleAtByPid : List (Nat × Int)
deriving DecidableEq, Repr

/-- A fresh tracker (`new IncidentTracker()`). -/
def IncidentTracker.init : IncidentTracker :=
  { active := none, lastBundleAtByPid := [] }

/-- `this.lastBundleAtByPid.get(pid) ?? 0`. -/
def lastBundleAt (m : List (Nat × Int)) (pid : Nat) : Int :=
  match m.find? (fun e => e.1 == pid) with
  | some e => e.2
  | none => 0

/-- `Map.set` on the per-PID timestamp map. -/
def setBundleAt (m : List (Nat × Int)) (pid : Nat) (t : Int) : List (Nat × Int) :=
  if m.any (fun e => e.1 == pid) then
    m.map fun e => if e.1 == pid then (pid, t) else e
  else m ++ [(pid, t)]

/-- incident.ts `IncidentTracker.update`: close on ok, open on the first
non-ok (fresh id, `bundleCaptured = false`), escalate peakLevel to critical,
refresh the reason.  The fresh opaque id and the clock are passed in. -/
def IncidentTracker.update (t : IncidentTracker) (level : RiskLevel)
    (reason : String) (freshId : String) (now : Int) :
    IncidentTracker × Option Incident :=
  match level, t.active with
  | .ok, some a =>
      let closed := { a with closedAt := some now }
      ({ t with active := none }, some closed)
  | .ok, none => (t, none)
  | l, none =>
      let opened : Incident :=
        { id := freshId, startedAt := now, closedAt := none, reason := reason,
          peakLevel := l, bundleCaptured := false, bundlePath := none }
      ({ t with active := some opened }, some opened)
  | l, some a =>
      let a' := if l = .critical ∧ a.peakLevel ≠ .critical
        then { a with peakLevel := .critical, reason := reason }
        else { a with reason := reason }
      ({ t with active := some a' }, some a')

/-- incident.ts `IncidentTracker.shouldCaptureBundle`: true only for an
active critical incident with no bundle yet, and only when every pid in the
argument is out of its 300 s cooldown (timestamps in milliseconds). -/
def IncidentTracker.shouldCaptureBundle (t : IncidentTracker) (pids : List Nat)
    (now : Int) : Bool :=
  match t.active with
  | none => false
  | some a =>
    if a.peakLevel ≠ RiskLevel.critical then false
    else if a.bundleCaptured then false
    else pids.all fun pid =>
      decide (THRESHOLDS.bundleCooldownSeconds * 1000 ≤
        now - lastBundleAt t.lastBundleAtByPid pid)

/-- incident.ts `IncidentTracker.markBundleCaptured`: set the captured flag
and bundle path on the active incident and stamp every pid's timestamp. -/
def IncidentTracker.markBundleCaptured (t : IncidentTracker)
    (bundlePath : String) (pids : List Nat) (now : Int) : IncidentTracker :=
  { active := t.active.map fun a =>
      { a with bundleCaptured := true, bundlePath := some bundlePath }
    lastBundleAtByPid := pids.foldl (fun m pid => setBundleAt m pid now)
      t.lastBundleAtByPid }

/-- Feed a whole sequence of risk observations to the tracker
(each step: level, reason, fresh id, clock). -/
def IncidentTracker.runUpdates (t : IncidentTracker)
    (steps : List (RiskLevel × String × String × Int)) : IncidentTracker :=
  steps.foldl (fun s step => (s.update step.1 step.2.1 step.2.2.1 step.2.2.2).1) t

/-- Number of active incidents a tracker holds (0 or 1 by construction,
mirroring the single nullable `active` field). -/
def activeCount (t : IncidentTracker) : Nat :=
  match t.active with
  | none => 0
  | some _ => 1

/-- The pid list the watch daemon passes to the bundle gate each tick:
`processes.map(p => p.pid)` (watch-daemon.ts). -/
def daemonBundlePids (processes : List ClaudeProcess) : List Nat :=
  processes.map fun p => p.pid

/-- A concurrency lease (budget-store.ts `BudgetLease`); `grantedAt` and
`expiresAt` are epoch milliseconds. -/
structure BudgetLease where
  id : String
  slots : Int
  reason : String
  grantedAt : Int
  expiresAt : Int
deriving DecidableEq, Repr

/-- The persisted budget record (budget-store.ts `BudgetData`). -/
structure BudgetData where
  currentCap : Int
  baseCap : Int
  leases : List BudgetLease
  capSetByRisk : Option RiskLevel
  capChangedAt : Int
  okSinceAt : Option Int
deriving DecidableEq, Repr

namespace BUDGET_THRESHOLDS

/-- Modelled from the spec: the body of defaults.ts `BUDGET_THRESHOLDS` is not
among the sources; the spec's threshold table fixes baseCap = 4 slots, which
tests/budget.test.ts confirms. -/
def baseCap : Int := 4

/-- Modelled from the spec: warnCap = 2 slots (threshold table; confirmed by
tests/budget.test.ts). -/
def warnCap : Int := 2

/-- Modelled from the spec: criticalCap = 1 slot (threshold table; confirmed
by tests/budget.test.ts). -/
def criticalCap : Int := 1

/-- Modelled from the spec: hysteresis = 60 s (threshold table; confirmed by
tests/budget.test.ts). -/
def hysteresisSeconds : Int := 60

end BUDGET_THRESHOLDS

/-- budget.ts `get slotsInUse`: the sum of the active leases' slots. -/
def slotsInUse (b : BudgetData) : Int :=
  (b.leases.map fun l => l.slots).sum

/-- budget.ts `get slotsAvailable`: `max(0, currentCap - slotsInUse)`. -/
def slotsAvailable (b : BudgetData) : Int :=
  max 0 (b.currentCap - slotsInUse b)

/-- budget-store.ts `emptyBudget` (the clock is passed in for `capChangedAt`). -/
def emptyBudget (now : Int) : BudgetData :=
  { currentCap := BUDGET_THRESHOLDS.baseCap
    baseCap := BUDGET_THRESHOLDS.baseCap
    leases := []
    capSetByRisk := none
    capChangedAt := now
    okSinceAt := none }

/-- budget.ts `adjustCap`: warn and critical force the reduced caps and clear
`okSinceAt`; ok starts (or continues) the hysteresis timer and restores
`currentCap = baseCap`, clearing `capSetByRisk`, once
`(now - okSinceAt) / 1000 ≥ hysteresisSeconds` — stated here without the
division as `hysteresisSeconds * 1000 ≤ now - okSinceAt`, which is the same
comparison over the reals.  Returns the new record and whether the cap
changed (`capChangedAt` is stamped exactly when it did). -/
def adjustCap (b : BudgetData) (riskLevel : RiskLevel) (now : Int) :
    BudgetData × Bool :=
  let b' : BudgetData :=
    match riskLevel with
    | .critical =>
        { b with
          currentCap := BUDGET_THRESHOLDS.criticalCap
          okSinceAt := none
          capSetByRisk := some .critical }
    | .warn =>
        { b with
          currentCap := BUDGET_THRESHOLDS.warnCap
          okSinceAt := none
          capSetByRisk := some .warn }
    | .ok =>
        let okSince := b.okSinceAt.getD now
        if BUDGET_THRESHOLDS.hysteresisSeconds * 1000 ≤ now - okSince then
          { b with
            okSinceAt := some okSince
            currentCap := b.baseCap
            capSetByRisk := none }
        else
          { b with okSinceAt := some okSince }
  if b'.currentCap ≠ b.currentCap then
    ({ b' with capChangedAt := now }, true)
  else (b', false)

/-- The result record of an acquire attempt (budget.ts `AcquireResult`). -/
structure AcquireResult where
  granted : Bool
  lease : Option BudgetLease
  reason : String
  currentCap : Int
  slotsInUse : Int
  slotsAvailable : Int
deriving DecidableEq, Repr

/-- The denial text of an over-cap acquire. -/
def acquireDeniedReason (n : Int) (b : BudgetData) : String :=
  "Requested " ++ toString n ++ " slots but only " ++
    toString (slotsAvailable b) ++ " available (cap=" ++
    toString b.currentCap ++ ", in-use=" ++ toString (slotsInUse b) ++ ")"

/-- budget.ts `acquire(n, ttlSeconds, reason)`: deny on non-positive n or
ttl or when n exceeds the available slots; otherwise mint a lease with the
passed fresh opaque id and append it. -/
def acquire (b : BudgetData) (n ttlSeconds : Int) (reason freshId : String)
    (now : Int) : BudgetData × AcquireResult :=
  if n ≤ 0 then
    (b, { granted := false, lease := none, reason := "Slots must be > 0",
          currentCap := b.currentCap, slotsInUse := slotsInUse b,
          slotsAvailable := slotsAvailable b })
  else if ttlSeconds ≤ 0 then
    (b, { granted := false, lease := none, reason := "TTL must be > 0",
          currentCap := b.currentCap, slotsInUse := slotsInUse b,
          slotsAvailable := slotsAvailable b })
  else if slotsAvailable b < n then
    (b, { granted := false, lease := none, reason := acquireDeniedReason n b,
          currentCap := b.currentCap, slotsInUse := slotsInUse b,
          slotsAvailable := slotsAvailable b })
  else
    let lease : BudgetLease :=
      { id := freshId, slots := n, reason := reason, grantedAt := now,
        expiresAt := now + ttlSeconds * 1000 }
    let b' := { b with leases := b.leases ++ [lease] }
    (b', { granted := true, lease := some lease, reason := "Granted",
           currentCap := b'.currentCap, slotsInUse := slotsInUse b',
           slotsAvailable := slotsAvailable b' })

/-- Remove the first lease with the given id (`findIndex` + `splice`). -/
def removeLease : List BudgetLease → String → Option (List BudgetLease)
  | [], _ => none
  | l :: ls, leaseId =>
      if l.id == leaseId then some ls
      else (removeLease ls leaseId).map fun ls' => l :: ls'

/-- budget.ts `release(id)`: drop the lease by id, report whether found. -/
def release (b : BudgetData) (leaseId : String) : BudgetData × Bool :=
  match removeLease b.leases leaseId with
  | some ls => ({ b with leases := ls }, true)
  | none => (b, false)

/-- budget.ts `expireLeases`: keep leases with `expiresAt > now`, return the
count removed. -/
def expireLeases (b : BudgetData) (now : Int) : BudgetData × Nat :=
  let remaining := b.leases.filter fun l => decide (now < l.expiresAt)
  ({ b with leases := remaining }, b.leases.length - remaining.length)

/-- Summary for display (budget.ts `BudgetSummary`). -/
structure BudgetSummary where
  currentCap : Int
  baseCap : Int
  slotsInUse : Int
  slotsAvailable : Int
  activeLeases : Nat
  capSetByRisk : Option RiskLevel
  okSinceAt : Option Int
  hysteresisRemainingSeconds : Int
deriving DecidableEq, Repr

/-- budget.ts `summarize`: `hysteresisRemainingSeconds` is
`max(0, round(hysteresisSeconds - (now - okSinceAt)/1000))` when the cap is
below base and `okSinceAt` is set, else 0; `round` (half toward +∞) is
written with floor division as `fdiv (remaining + 500) 1000`. -/
def summarize (b : BudgetData) (now : Int) : BudgetSummary :=
  let hysteresisRemaining : Int :=
    match b.okSinceAt with
    | some t0 =>
        if b.currentCap < b.baseCap then
          max 0 (Int.fdiv
            (BUDGET_THRESHOLDS.hysteresisSeconds * 1000 - (now - t0) + 500)
            1000)
        else 0
    | none => 0
  { currentCap := b.currentCap
    baseCap := b.baseCap
    slotsInUse := slotsInUse b
    slotsAvailable := slotsAvailable b
    activeLeases := b.leases.length
    capSetByRisk := b.capSetByRisk
    okSinceAt := b.okSinceAt
    hysteresisRemainingSeconds := hysteresisRemaining }

/-- The three observable conditions of budget.json at read time: absent,
parseable, or present-but-unparseable.  Abstracts the file system and JSON
parser under budget-store.ts `readBudget`. -/
inductive BudgetFile where
  | missing
  | wellFormed (data : BudgetData)
  | malformed
deriving DecidableEq, Repr

/-- What one call to budget-store.ts `readBudget` produces: the parsed record
(null on absence or corruption), whether a `<name>.corrupt.<epoch>` backup
copy was written, and how many warning lines were logged. -/
structure ReadBudgetOutcome where
  result : Option BudgetData
  corruptBackupWritten : Bool
  warningLines : Nat
deriving DecidableEq, Repr

/-- budget-store.ts `readBudget`: missing file → null silently; parseable →
the record; unparseable → back up to `budget.json.corrupt.<epoch>`, log one
warning line, and return null. -/
def readBudget : BudgetFile → ReadBudgetOutcome
  | .missing => { result := none, corruptBackupWritten := false, warningLines := 0 }
  | .wellFormed d => { result := some d, corruptBackupWritten := false, warningLines := 0 }
  | .malformed => { result := none, corruptBackupWritten := true, warningLines := 1 }

/-- The payload shapes the guardian_budget_get handler can answer with:
the "Budget not initialized" text, or a budget summary plus lease lines. -/
inductive BudgetGetResponse where
  | notInitialized
  | summary (s : BudgetSummary) (leases : List BudgetLease)
deriving DecidableEq, Repr

/-- The guardian_budget_get handler (mcp-server.ts): read the budget; when
`readBudget` yields null answer "Budget not initialized", otherwise expire
leases and answer the summary. -/
def budgetGetHandler (file : BudgetFile) (now : Int) : BudgetGetResponse :=
  match (readBudget file).result with
  | none => .notInitialized
  | some data =>
      let b := (expireLeases data now).1
      .summary (summarize b now) b.leases

/-- Attention level (state.ts `AttentionLevel`). -/
inductive AttentionLevel where
  | none
  | info
  | warn
  | critical
deriving DecidableEq, Repr

/-- The operator-visible attention signal (state.ts `Attention`); `since` is
epoch milliseconds. -/
structure Attention where
  level : AttentionLevel
  since : Int
  reason : String
  recommendedActions : List String
  incidentId : Option String
deriving DecidableEq, Repr

/-- `a.includes(pat)` on strings: pat occurs as a substring. -/
def includesSubstr (s pat : String) : Bool :=
  (s.splitOn pat).length != 1

/-- state.ts `computeAttention`: hang risk drives the main level, disk-low
raises to at least warn, a reduced budget cap and an active incident each
raise to at least info; `since` is carried over from the previous attention
exactly when its level equals the newly computed level. -/
def computeAttention (hangRisk : HangRisk) (budgetSummary : Option BudgetSummary)
    (activeIncident : Option Incident) (previousAttention : Option Attention)
    (now : Int) : Attention :=
  let step1 : AttentionLevel × List String × List String :=
    if hangRisk.level = RiskLevel.critical then
      (.critical, ["Hang risk is critical"],
       ["Run guardian_nudge to capture diagnostics",
        "Reduce concurrency — call guardian_budget_get to check cap",
        "If no recovery in 2 minutes, restart Claude Code"])
    else if hangRisk.level = RiskLevel.warn then
      (.warn, ["Hang risk is elevated"],
       ["Run guardian_nudge for safe remediation",
        "Reduce concurrency — call guardian_budget_get to check cap",
        "Monitor with guardian_status"])
    else (.none, [], [])
  let step2 : AttentionLevel × List String × List String :=
    if hangRisk.diskLow then
      ((if step1.1 = .none then .warn else step1.1),
       step1.2.1 ++ ["Disk space is low"],
       step1.2.2 ++ ["Run guardian_preflight_fix to free space"])
    else step1
  let step3 : AttentionLevel × List String × List String :=
    match budgetSummary with
    | some bs =>
        if bs.currentCap < bs.baseCap then
          ((if step2.1 = .none then .info else step2.1),
           step2.2.1 ++ ["Budget cap reduced to " ++ toString bs.currentCap ++
             "/" ++ toString bs.baseCap],
           if step2.2.2.any fun a => includesSubstr a "guardian_budget_get" then
             step2.2.2
           else step2.2.2 ++ ["Call guardian_budget_acquire before heavy work"])
        else step2
    | none => step2
  let step4 : AttentionLevel × List String × List String :=
    match activeIncident with
    | some i =>
        if step3.1 = .none then
          (.info, step3.2.1 ++ ["Active incident: " ++ i.id], step3.2.2)
        else step3
    | none => step3
  let level := step4.1
  let since : Int :=
    match previousAttention with
    | some p => if p.level = level then p.since else now
    | none => now
  { level := level
    since := since
    reason := if step4.2.1.isEmpty then "All systems healthy"
      else String.intercalate "; " step4.2.1
    recommendedActions := step4.2.2
    incidentId := activeIncident.map fun i => i.id }

namespace DEFAULT_CONFIG

/-- defaults.ts `DEFAULT_CONFIG.maxProjectLogDirMB`. -/
def maxProjectLogDirMB : ℚ := 200

/-- defaults.ts `DEFAULT_CONFIG.hangNoActivitySeconds`. -/
def hangNoActivitySeconds : Int := 300

end DEFAULT_CONFIG

/-- The persisted snapshot (state.ts `GuardianState`). -/
structure GuardianState where
  updatedAt : Int
  daemonRunning : Bool
  daemonPid : Option Nat
  claudeProcesses : List ClaudeProcess
  activity : ActivitySignals
  hangRisk : HangRisk
  recommendedActions : List String
  diskFreeGB : ℚ
  claudeLogSizeMB : ℚ
  activeIncident : Option Incident
  processAgeSeconds : Int
  compositeQuietSeconds : Int
  budgetSummary : Option BudgetSummary
  attention : Attention
deriving DecidableEq, Repr

/-- The bundle decision of the guardian_nudge handler (mcp-server.ts step 2):
capture iff the effective state shows an active incident, hang risk at warn
or critical, and the incident's bundleCaptured flag false. -/
def nudgeCapturesBundle (s : GuardianState) : Bool :=
  match s.activeIncident with
  | some i =>
      (decide (s.hangRisk.level = RiskLevel.warn) ||
        decide (s.hangRisk.level = RiskLevel.critical)) && !i.bundleCaptured
  | none => false

/-- The observable effect of one guardian_nudge call on a fresh persisted
snapshot: whether it ran the log-manager fix (state step 1), whether it
invoked the bundle writer (step 2), and the persisted state afterwards.  The
handler only ever reads state.json (mcp-server.ts imports `readState` and
never `writeState`), so the persisted snapshot is returned unchanged. -/
structure NudgeEffect where
  ranPreflightFix : Bool
  capturedBundle : Bool
  stateAfter : GuardianState
deriving DecidableEq, Repr

/-- The guardian_nudge handler (mcp-server.ts): fix logs when disk is low or
the log tree exceeds maxProjectLogDirMB, capture a bundle per
`nudgeCapturesBundle`, and leave the persisted snapshot untouched. -/
def nudge (s : GuardianState) : NudgeEffect :=
  { ranPreflightFix := s.hangRisk.diskLow ||
      decide (DEFAULT_CONFIG.maxProjectLogDirMB < s.claudeLogSizeMB)
    capturedBundle := nudgeCapturesBundle s
    stateAfter := s }

/-- A fresh persisted snapshot showing an active critical incident whose
bundle has not been captured — the situation of spec scenario 4 as the nudge
handler would read it. -/
def sampleNudgeState : GuardianState :=
  { updatedAt := 0
    daemonRunning := true
    daemonPid := some 42
    claudeProcesses := []
    activity := ⟨905, false, []⟩
    hangRisk := ⟨RiskLevel.critical, 905, 905, false, false, false, 0, []⟩
    recommendedActions := []
    diskFreeGB := 100
    claudeLogSizeMB := 10
    activeIncident := some ⟨"ab12cd34", 0, none, "No activity for 905s",
      RiskLevel.critical, false, none⟩
    processAgeSeconds := 3600
    compositeQuietSeconds := 905
    budgetSummary := none
    attention := ⟨AttentionLevel.critical, 0, "Hang risk is critical", [],
      some "ab12cd34"⟩ }

/-- With the grace window over, the level computation of `assessHangRisk`
collapses to the composite-quiet / disk / cpu+memory cascade. -/
theorem assessHangRisk_level_after_grace (ps : List ClaudeProcess)
    (a : ActivitySignals) (d : ℚ) (hang age cq : Int)
    (hgrace : THRESHOLDS.graceWindowSeconds ≤ age) :
    (assessHangRisk ps a d hang age cq).level =
      if logQuiet a hang && cpuLow a && decide (hang < cq) then
        if decide (hang + THRESHOLDS.criticalAfterSeconds < cq) then
          RiskLevel.critical
        else RiskLevel.warn
      else if diskLowB d then RiskLevel.warn
      else if cpuHotB ps && memoryHighB ps then RiskLevel.warn
      else RiskLevel.ok := by
  have h0 : graceRemainingOf age = 0 := by
    unfold graceRemainingOf THRESHOLDS.graceWindowSeconds at *
    omega
  simp only [assessHangRisk, h0, apply_ite Prod.fst]
  norm_num

/-- C1: with the grace window expired, the detector level is critical iff
logQuiet and cpuLow both hold and compositeQuietSeconds strictly exceeds
hangThreshold + criticalAfterSeconds; without both quiet signals the level is
never critical, and at the boundary value exactly the level is warn. -/
theorem assessHangRisk_critical_iff (ps : List ClaudeProcess)
    (a : ActivitySignals) (d : ℚ) (hang age cq : Int)
    (hgrace : THRESHOLDS.graceWindowSeconds ≤ age) :
    ((assessHangRisk ps a d hang age cq).level = RiskLevel.critical ↔
      logQuiet a hang = true ∧ cpuLow a = true ∧
        hang + THRESHOLDS.criticalAfterSeconds < cq) ∧
    (¬(logQuiet a hang = true ∧ cpuLow a = true) →
      (assessHangRisk ps a d hang age cq).level ≠ RiskLevel.critical) ∧
    (logQuiet a hang = true → cpuLow a = true →
      cq = hang + THRESHOLDS.criticalAfterSeconds →
      (assessHangRisk ps a d hang age cq).level = RiskLevel.warn) := by
  rw [assessHangRisk_level_after_grace ps a d hang age cq hgrace]
  unfold THRESHOLDS.criticalAfterSeconds
  by_cases hlq : logQuiet a hang = true <;>
    by_cases hcl : cpuLow a = true <;>
      simp [hlq, hcl] <;>
        split_ifs <;> simp_all <;> omega

/-- C1 witness: concrete instance — grace expired (age 3600), logs quiet for
905 s past a 300 s threshold with CPU low: level is critical, and at exactly
900 s the level is warn. -/
theorem assessHangRisk_critical_iff_witness :
    ((assessHangRisk [] ⟨1000, false, []⟩ 100 300 3600 905).level =
        RiskLevel.critical ↔
      logQuiet ⟨1000, false, []⟩ 300 = true ∧ cpuLow ⟨1000, false, []⟩ = true ∧
        (300 : Int) + THRESHOLDS.criticalAfterSeconds < 905) ∧
    (¬(logQuiet ⟨1000, false, []⟩ 300 = true ∧
        cpuLow ⟨1000, false, []⟩ = true) →
      (assessHangRisk [] ⟨1000, false, []⟩ 100 300 3600 905).level ≠
        RiskLevel.critical) ∧
    (logQuiet ⟨1000, false, []⟩ 300 = true → cpuLow ⟨1000, false, []⟩ = true →
      (905 : Int) = 300 + THRESHOLDS.criticalAfterSeconds →
      (assessHangRisk [] ⟨1000, false, []⟩ 100 300 3600 905).level =
        RiskLevel.warn) :=
  assessHangRisk_critical_iff [] ⟨1000, false, []⟩ 100 300 3600 905 (by decide)

/-- During the grace window the level computation of `assessHangRisk`
collapses to the disk check alone. -/
theorem assessHangRisk_level_in_grace (ps : List ClaudeProcess)
    (a : ActivitySignals) (d : ℚ) (hang age cq : Int)
    (hage : age < THRESHOLDS.graceWindowSeconds) :
    (assessHangRisk ps a d hang age cq).level =
      if diskLowB d then RiskLevel.warn else RiskLevel.ok := by
  have h0 : 0 < graceRemainingOf age := by
    unfold graceRemainingOf THRESHOLDS.graceWindowSeconds at *
    omega
  simp only [assessHangRisk, apply_ite Prod.fst]
  simp [h0]

/-- C2: while processAgeSeconds < graceWindowSeconds the level is warn when
diskLow and ok otherwise (hang signals never escalate during grace); at
processAgeSeconds = graceWindowSeconds exactly, graceRemainingSeconds is 0
and hang-based escalation (here to critical) is permitted. -/
theorem assessHangRisk_grace_window (ps : List ClaudeProcess)
    (a : ActivitySignals) (d : ℚ) (hang age cq : Int)
    (hage : age < THRESHOLDS.graceWindowSeconds) :
    ((assessHangRisk ps a d hang age cq).level = RiskLevel.warn ↔
      diskLowB d = true) ∧
    ((assessHangRisk ps a d hang age cq).level = RiskLevel.ok ↔
      diskLowB d = false) ∧
    (assessHangRisk ps a d hang THRESHOLDS.graceWindowSeconds
      cq).graceRemainingSeconds = 0 ∧
    (assessHangRisk [] ⟨-1, false, []⟩ 100 300 THRESHOLDS.graceWindowSeconds
      901).level = RiskLevel.critical := by
  rw [assessHangRisk_level_in_grace ps a d hang age cq hage]
  refine ⟨?_, ?_, ?_, by decide⟩
  · by_cases hd : diskLowB d = true <;> simp [hd]
  · by_cases hd : diskLowB d = true <;> simp [hd]
  · show graceRemainingOf THRESHOLDS.graceWindowSeconds = 0
    decide

/-- C2 witness: a 15 s old process, logs quiet for 900 s, CPU idle and disk
healthy — the level is ok, not warn, and at 60 s the grace window is exactly 0. -/
theorem assessHangRisk_grace_window_witness :
    (((assessHangRisk [⟨100, "claude", 0, 300, 15⟩] ⟨900, false, []⟩ 100 300 15
        15).level = RiskLevel.warn ↔ diskLowB 100 = true) ∧
    ((assessHangRisk [⟨100, "claude", 0, 300, 15⟩] ⟨900, false, []⟩ 100 300 15
        15).level = RiskLevel.ok ↔ diskLowB 100 = false) ∧
    (assessHangRisk [⟨100, "claude", 0, 300, 15⟩] ⟨900, false, []⟩ 100 300
      THRESHOLDS.graceWindowSeconds 15).graceRemainingSeconds = 0 ∧
    (assessHangRisk [] ⟨-1, false, []⟩ 100 300 THRESHOLDS.graceWindowSeconds
      901).level = RiskLevel.critical) :=
  assessHangRisk_grace_window [⟨100, "claude", 0, 300, 15⟩] ⟨900, false, []⟩
    100 300 15 15 (by decide)

/-- C3: `shouldCaptureBundle(pids)` is true iff an incident is active, its
peakLevel is critical, its bundleCaptured flag is false, and every pid in the
argument is at least bundleCooldownSeconds past its last bundle; and after
`markBundleCaptured` the gate answers false for every later query, giving at
most one capture per incident. -/
theorem shouldCaptureBundle_iff (t : IncidentTracker) (pids : List Nat)
    (now : Int) :
    (t.shouldCaptureBundle pids now = true ↔
      ∃ a, t.active = some a ∧ a.peakLevel = RiskLevel.critical ∧
        a.bundleCaptured = false ∧
        ∀ pid ∈ pids, THRESHOLDS.bundleCooldownSeconds * 1000 ≤
          now - lastBundleAt t.lastBundleAtByPid pid) ∧
    (∀ path pids2 now2,
      (t.markBundleCaptured path pids now).shouldCaptureBundle pids2 now2 =
        false) := by
  constructor
  · cases hact : t.active with
    | none => simp [IncidentTracker.shouldCaptureBundle, hact]
    | some a =>
        simp only [IncidentTracker.shouldCaptureBundle, hact]
        by_cases hpeak : a.peakLevel = RiskLevel.critical <;>
          by_cases hcap : a.bundleCaptured <;>
            simp [hpeak, hcap]
  · intro path pids2 now2
    cases hact : t.active with
    | none =>
        simp [IncidentTracker.markBundleCaptured,
          IncidentTracker.shouldCaptureBundle, hact]
    | some a =>
        simp [IncidentTracker.markBundleCaptured,
          IncidentTracker.shouldCaptureBundle, hact]

/-- C4: feeding any sequence of risk levels to the tracker keeps at most one
incident active; while an incident stays active one update never lowers its
peakLevel (in particular critical is never demoted to warn); and an ok
observation on an active incident closes it with a closedAt stamp and clears
the active slot. -/
theorem incidentTracker_lifecycle :
    (∀ (t : IncidentTracker) (steps : List (RiskLevel × String × String × Int)),
      activeCount (t.runUpdates steps) ≤ 1) ∧
    (∀ (t : IncidentTracker) (level : RiskLevel) (reason freshId : String)
        (now : Int) (a a' : Incident),
      t.active = some a →
      ((t.update level reason freshId now).1).active = some a' →
      a.peakLevel.toNat ≤ a'.peakLevel.toNat ∧
        (a.peakLevel = RiskLevel.critical →
          a'.peakLevel = RiskLevel.critical)) ∧
    (∀ (t : IncidentTracker) (reason freshId : String) (now : Int)
        (a : Incident),
      t.active = some a →
      t.update RiskLevel.ok reason freshId now =
        ({ t with active := none }, some { a with closedAt := some now })) := by
  refine ⟨?_, ?_, ?_⟩
  · intro t steps
    cases h : (t.runUpdates steps).active <;> simp [activeCount, h]
  · intro t level reason freshId now a a' hact hact'
    cases level with
    | ok => simp [IncidentTracker.update, hact] at hact'
    | warn =>
        simp only [IncidentTracker.update, hact] at hact'
        simp at hact'
        subst hact'
        simp [RiskLevel.toNat]
    | critical =>
        simp only [IncidentTracker.update, hact] at hact'
        by_cases hpeak : a.peakLevel = RiskLevel.critical <;>
          simp [hpeak] at hact' <;> subst hact' <;>
            cases hpl : a.peakLevel <;> simp_all [RiskLevel.toNat]
  · intro t reason freshId now a hact
    simp [IncidentTracker.update, hact]

/-- C10: with an active critical incident that has no bundle yet, the bundle
gate called with the daemon's pid list for an empty process set (the empty
list) answers true — the per-PID cooldown quantifier is vacuous — so the
daemon's capture step fires even on a tick with no watched processes. -/
theorem shouldCaptureBundle_no_processes (t : IncidentTracker) (a : Incident)
    (now : Int) (hact : t.active = some a)
    (hpeak : a.peakLevel = RiskLevel.critical)
    (hcap : a.bundleCaptured = false) :
    t.shouldCaptureBundle (daemonBundlePids []) now = true := by
  simp [IncidentTracker.shouldCaptureBundle, hact, hpeak, hcap,
    daemonBundlePids]

/-- C10 witness: a concrete tracker holding an active critical incident with
no bundle captured — the gate fires on the empty pid list. -/
theorem shouldCaptureBundle_no_processes_witness :
    IncidentTracker.shouldCaptureBundle
      ⟨some ⟨"ab12cd34", 0, none, "No activity for 905s", RiskLevel.critical,
        false, none⟩, []⟩
      (daemonBundlePids []) 1000 = true :=
  shouldCaptureBundle_no_processes
    ⟨some ⟨"ab12cd34", 0, none, "No activity for 905s", RiskLevel.critical,
      false, none⟩, []⟩
    ⟨"ab12cd34", 0, none, "No activity for 905s", RiskLevel.critical, false,
      none⟩ 1000 rfl rfl rfl

/-- C5 counterexample: start from the default budget, reduce on warn at t=0,
observe ok at t=1 s and again at t=62 s.  The cap is restored to baseCap and
capSetByRisk is cleared, but okSinceAt is NOT null afterwards — it still
holds the ok-interval start (1000 ms), against the claim. -/
theorem adjustCap_restore_keeps_okSinceAt :
    ((adjustCap (adjustCap (adjustCap (emptyBudget 0) RiskLevel.warn 0).1
        RiskLevel.ok 1000).1 RiskLevel.ok 62000).1).currentCap =
      BUDGET_THRESHOLDS.baseCap ∧
    ((adjustCap (adjustCap (adjustCap (emptyBudget 0) RiskLevel.warn 0).1
        RiskLevel.ok 1000).1 RiskLevel.ok 62000).1).capSetByRisk = none ∧
    ((adjustCap (adjustCap (adjustCap (emptyBudget 0) RiskLevel.warn 0).1
        RiskLevel.ok 1000).1 RiskLevel.ok 62000).1).okSinceAt = some 1000 := by
  decide

/-- C5 (amended): adjustCap clears okSinceAt on every warn or critical
observation and sets it on every ok observation (to the start of the current
ok interval); when the sustained-ok duration reaches the hysteresis the cap
is restored to baseCap and capSetByRisk is cleared, while okSinceAt keeps the
ok-interval start instead of being nulled. -/
theorem adjustCap_okSinceAt_behavior (b : BudgetData) (level : RiskLevel)
    (now : Int) :
    (level ≠ RiskLevel.ok → ((adjustCap b level now).1).okSinceAt = none) ∧
    (level = RiskLevel.ok →
      ((adjustCap b level now).1).okSinceAt = some (b.okSinceAt.getD now)) ∧
    (∀ t0 : Int, level = RiskLevel.ok → b.okSinceAt = some t0 →
      BUDGET_THRESHOLDS.hysteresisSeconds * 1000 ≤ now - t0 →
      ((adjustCap b level now).1).currentCap = b.baseCap ∧
      ((adjustCap b level now).1).capSetByRisk = none ∧
      ((adjustCap b level now).1).okSinceAt = some t0) := by
  obtain ⟨cap, base, ls0, csr, cca, osa⟩ := b
  cases level with
  | ok =>
      refine ⟨fun h => absurd rfl h, fun _ => ?_, fun t0 _ ht0 hge => ?_⟩
      · simp only [adjustCap]
        split_ifs <;> simp
      · simp only at ht0
        subst ht0
        simp only [adjustCap, Option.getD_some, if_pos hge]
        split_ifs <;> simp
  | warn =>
      refine ⟨fun _ => ?_, fun h => absurd h (by decide),
        fun t0 h => absurd h (by decide)⟩
      simp only [adjustCap]
      split_ifs <;> simp
  | critical =>
      refine ⟨fun _ => ?_, fun h => absurd h (by decide),
        fun t0 h => absurd h (by decide)⟩
      simp only [adjustCap]
      split_ifs <;> simp

/-- Cap adjustment never reads or writes the lease list: adjusting a record
whose leases were replaced equals replacing the leases of the adjusted
record, with the same changed flag. -/
theorem adjustCap_setLeases (b : BudgetData) (ls : List BudgetLease)
    (level : RiskLevel) (now : Int) :
    adjustCap { b with leases := ls } level now =
      ({ (adjustCap b level now).1 with leases := ls },
        (adjustCap b level now).2) := by
  obtain ⟨cap, base, ls0, csr, cca, osa⟩ := b
  cases level <;> simp only [adjustCap] <;> split_ifs <;> simp_all

/-- C9 counterexample: from the default budget (cap 4), acquiring 3 slots and
then observing warn does not commute with observing warn and then acquiring —
the first order grants the lease (it fits under cap 4), the second denies it
(cap already 2), so the resulting budget states differ. -/
theorem acquire_adjustCap_noncommute :
    (adjustCap (acquire (emptyBudget 0) 3 60 "batch" "lease001" 0).1
        RiskLevel.warn 0).1 ≠
      (acquire (adjustCap (emptyBudget 0) RiskLevel.warn 0).1 3 60 "batch"
        "lease001" 0).1 := by
  decide

/-- C9 (amended): release commutes with cap adjustment unconditionally
(release touches only the lease list, adjustCap never inspects it), but
acquire commutes with a cap adjustment only when the adjustment leaves
currentCap unchanged — in general the grant decision reads currentCap, so
acquire-then-adjust and adjust-then-acquire can differ. -/
theorem budget_release_acquire_commute (b : BudgetData) (level : RiskLevel)
    (now : Int) (leaseId : String) (n ttl : Int) (reason freshId : String)
    (tAcq : Int) :
    ((adjustCap (release b leaseId).1 level now).1 =
      (release (adjustCap b level now).1 leaseId).1 ∧
      (release b leaseId).2 = (release (adjustCap b level now).1 leaseId).2) ∧
    ((adjustCap b level now).1.currentCap = b.currentCap →
      (adjustCap (acquire b n ttl reason freshId tAcq).1 level now).1 =
        (acquire (adjustCap b level now).1 n ttl reason freshId tAcq).1) := by
  have hleases : ((adjustCap b level now).1).leases = b.leases := by
    obtain ⟨cap, base, ls0, csr, cca, osa⟩ := b
    cases level <;> simp only [adjustCap] <;> split_ifs <;> simp
  constructor
  · cases h : removeLease b.leases leaseId with
    | none =>
        have hr : release b leaseId = (b, false) := by
          simp [release, h]
        have hr' : release (adjustCap b level now).1 leaseId =
            ((adjustCap b level now).1, false) := by
          simp [release, hleases, h]
        simp [hr, hr']
    | some ls =>
        have hr : release b leaseId = ({ b with leases := ls }, true) := by
          simp [release, h]
        have hr' : release (adjustCap b level now).1 leaseId =
            ({ (adjustCap b level now).1 with leases := ls }, true) := by
          simp [release, hleases, h]
        simp [hr, hr', adjustCap_setLeases]
  · intro hcap
    have havail : slotsAvailable (adjustCap b level now).1 = slotsAvailable b := by
      simp [slotsAvailable, slotsInUse, hleases, hcap]
    have hinuse : slotsInUse (adjustCap b level now).1 = slotsInUse b := by
      simp [slotsInUse, hleases]
    by_cases h1 : n ≤ 0
    · simp [acquire, h1, hcap]
    · by_cases h2 : ttl ≤ 0
      · simp [acquire, h1, h2, hcap]
      · by_cases h3 : slotsAvailable b < n
        · simp [acquire, h1, h2, h3, havail, hcap]
        · have h3' : ¬ slotsAvailable (adjustCap b level now).1 < n := by
            rw [havail]; exact h3
          simp only [acquire, if_neg h1, if_neg h2, if_neg h3, if_neg h3']
          simp [adjustCap_setLeases, hleases, hcap]

/-- C8 counterexample: on an unparseable budget.json the guardian_budget_get
handler answers "Budget not initialized", not the default budget summary
(cap 4, no leases) the claim promises. -/
theorem budgetGet_corrupt_counterexample :
    budgetGetHandler BudgetFile.malformed 0 = BudgetGetResponse.notInitialized ∧
    budgetGetHandler BudgetFile.malformed 0 ≠
      BudgetGetResponse.summary (summarize (emptyBudget 0) 0) [] := by
  decide

/-- C8 (amended): on unparseable budget.json, `readBudget` writes the
`budget.json.corrupt.<epoch>` backup copy, logs exactly one warning line and
returns null; the budget_get handler then answers the "Budget not
initialized" text rather than a summary.  The default budget (cap 4 = baseCap,
no leases) exists as `emptyBudget`, used by the callers that fall back to it
(budget_acquire, the poll loop). -/
theorem budgetGet_corrupt_behavior (now : Int) :
    (readBudget BudgetFile.malformed).corruptBackupWritten = true ∧
    (readBudget BudgetFile.malformed).warningLines = 1 ∧
    (readBudget BudgetFile.malformed).result = none ∧
    budgetGetHandler BudgetFile.malformed now =
      BudgetGetResponse.notInitialized ∧
    (emptyBudget now).currentCap = BUDGET_THRESHOLDS.baseCap ∧
    (emptyBudget now).baseCap = BUDGET_THRESHOLDS.baseCap ∧
    (emptyBudget now).leases = [] :=
  ⟨rfl, rfl, rfl, rfl, rfl, rfl, rfl⟩

/-- C6 counterexample: a fresh snapshot with an active critical incident and
bundleCaptured = false.  The first nudge captures a bundle, leaves the
persisted state untouched, and a second nudge on the unchanged state captures
again — there IS a second bundle, against the claim. -/
theorem nudge_twice_captures_twice :
    (nudge sampleNudgeState).capturedBundle = true ∧
    (nudge sampleNudgeState).stateAfter = sampleNudgeState ∧
    (nudge ((nudge sampleNudgeState).stateAfter)).capturedBundle = true := by
  decide

/-- C6 (amended): the nudge handler respects the bundle-captured flag (no
bundle when the persisted incident has it set) but never sets the flag itself
and never writes the persisted state, so a repeat call with no intervening
state change repeats the first call's capture decision; twice-in-a-row
idempotence holds only once the daemon has persisted bundleCaptured = true. -/
theorem nudge_respects_bundle_flag (s : GuardianState) :
    (∀ i, s.activeIncident = some i → i.bundleCaptured = true →
      (nudge s).capturedBundle = false) ∧
    (nudge s).stateAfter = s ∧
    (nudge ((nudge s).stateAfter)).capturedBundle =
      (nudge s).capturedBundle := by
  refine ⟨?_, rfl, rfl⟩
  intro i hi hc
  simp [nudge, nudgeCapturesBundle, hi, hc]

/-- C7: the attention level computed by `computeAttention` does not depend on
the previous attention, and `since` is carried over from the previous
attention exactly when the previous level equals the newly computed level,
otherwise it is set to now. -/
theorem computeAttention_since_preserved (r : HangRisk)
    (bs : Option BudgetSummary) (ai : Option Incident) (prev : Attention)
    (now : Int) :
    (computeAttention r bs ai (some prev) now).level =
      (computeAttention r bs ai none 0).level ∧
    (computeAttention r bs ai (some prev) now).since =
      (if prev.level = (computeAttention r bs ai none 0).level then prev.since
        else now) :=
  ⟨rfl, rfl⟩

end Guardian
